import Mathlib

/-!
# Verification of the Antares mount lifecycle manager (scorpiofs)

Shallow embedding of `src/antares/mod.rs` (`AntaresManager` and its helpers).

Paths are modelled as lists of components; `PathBuf::join` appends a
component and `Path::parent` drops the last one.  Machine effects
(directory creation, file read/write, the external `fusermount` tool and
the external `toml` serializer) are modelled as oracle functions gathered
in an `Env`; each manager operation threads the in-memory registry
explicitly and records the effectful steps it attempted as a trace of
events, so that claims about "no persist performed" or the order of
directory creations are statable.
-/

namespace Scorpiofs

/-- A filesystem path, as its list of components (`PathBuf`). -/
abbrev Path := List String

/-- `PathBuf::join` with a single component. -/
def pathJoin (p : Path) (s : String) : Path := p ++ [s]

/-- `Path::parent`: drop the last component; `none` on an empty path. -/
def pathParent (p : Path) : Option Path :=
  if p.isEmpty then none else some p.dropLast

/-- `std::io::ErrorKind`, restricted to the kinds this module produces or
inspects. -/
inductive ErrorKind where
  | notFound
  | permissionDenied
  | invalidData
  | other
  deriving DecidableEq, Repr

/-- `std::io::Error`: a kind and a message. -/
structure IOErr where
  kind : ErrorKind
  msg : String
  deriving DecidableEq, Repr

/-- Global paths used by Antares to place layers and state
(`AntaresPaths`). -/
structure AntaresPaths where
  upper_root : Path
  cl_root : Path
  mount_root : Path
  state_file : Path
  deriving DecidableEq, Repr

/-- Persisted config for a mounted Antares job instance (`AntaresConfig`).
Field order follows the Rust struct. -/
structure AntaresConfig where
  job_id : String
  mountpoint : Path
  upper_id : String
  upper_dir : Path
  cl_dir : Option Path
  cl_id : Option String
  deriving DecidableEq, Repr

/-- The persisted state document (`AntaresState`): a single list of mount
entries. -/
structure AntaresState where
  mounts : List AntaresConfig
  deriving DecidableEq, Repr

/-- The in-memory registry, `HashMap<String, AntaresConfig>`, modelled as an
association list (lookup semantics only; keys stay distinct along all
reachable states). -/
abbrev Registry := List (String × AntaresConfig)

/-- `HashMap::get`. -/
def Registry.get (m : Registry) (k : String) : Option AntaresConfig :=
  (m.find? (fun kv => kv.1 == k)).map Prod.snd

/-- Does the map contain the key. -/
def Registry.hasKey (m : Registry) (k : String) : Bool :=
  m.any (fun kv => kv.1 == k)

/-- `HashMap::insert`: replaces the entry with the same key, otherwise
appends. -/
def Registry.insert (m : Registry) (k : String) (v : AntaresConfig) : Registry :=
  if Registry.hasKey m k then
    m.map (fun kv => if kv.1 == k then (k, v) else kv)
  else
    m ++ [(k, v)]

/-- `HashMap::remove`, key-erasure part. -/
def Registry.eraseKey (m : Registry) (k : String) : Registry :=
  m.filter (fun kv => kv.1 != k)

/-- `HashMap::values().cloned().collect()`. -/
def Registry.values (m : Registry) : List AntaresConfig :=
  m.map Prod.snd

/-- How many entries carry the key. -/
def Registry.countKey (m : Registry) (k : String) : Nat :=
  (m.filter (fun kv => kv.1 == k)).length

/-- Captured output of the external unmount subprocess: `status.success()`
and its stderr text. -/
structure CmdOutput where
  success : Bool
  stderr : String
  deriving DecidableEq, Repr

/-- Oracle for the machine effects the manager touches.  `create_dir_all`,
`read_to_string` and `write_file` are the filesystem calls (`write_file`
models `File::create` followed by `write_all`); `path_exists` is
`Path::exists`; `to_toml`/`from_toml` are the external
`toml::to_string_pretty` / `toml::from_str`; `fusermount_u` runs
`fusermount -u <path>`, where an `error` is a spawn failure and an `ok`
carries the finished process's output. -/
structure Env where
  create_dir_all : Path → Except IOErr Unit
  read_to_string : Path → Except IOErr String
  write_file : Path → String → Except IOErr Unit
  path_exists : Path → Bool
  to_toml : AntaresState → Except String String
  from_toml : String → Except String AntaresState
  fusermount_u : Path → Except IOErr CmdOutput

/-- An effectful step a manager operation attempted, in order. -/
inductive Ev where
  | mkdir (p : Path)
  | writeState (p : Path) (data : String)
  | fusermount (p : Path)
  deriving DecidableEq, Repr

/-- Rust `str::contains` (substring test). -/
def strContains (hay needle : String) : Bool :=
  (hay.splitOn needle).length != 1

/-- Classification of the unmount subprocess outcome described in the spec:
success, idempotent no-op ("not mounted" / "Invalid argument"), or an
unclassified failure. -/
inductive UnmountOutcome where
  | success
  | alreadyUnmounted
  | otherFailure
  deriving DecidableEq, Repr

/-- The stderr/status classification `umount_job` performs (lines 275-294 of
`antares/mod.rs`); in the code it only selects a log message. -/
def classifyOutput (o : CmdOutput) : UnmountOutcome :=
  if o.success then
    UnmountOutcome.success
  else if strContains o.stderr "not mounted" || strContains o.stderr "Invalid argument" then
    UnmountOutcome.alreadyUnmounted
  else
    UnmountOutcome.otherFailure

/-- `AntaresManager::load_state`: missing file means empty map; unreadable
file propagates the I/O error; unparseable content becomes an
`InvalidData` error; otherwise the entries are inserted keyed by their
`job_id`. -/
def load_state (env : Env) (path : Path) : Except IOErr Registry :=
  if env.path_exists path then
    match env.read_to_string path with
    | Except.error e => Except.error e
    | Except.ok content =>
      match env.from_toml content with
      | Except.error e =>
        Except.error ⟨ErrorKind.invalidData, "parse state: " ++ e⟩
      | Except.ok state =>
        Except.ok (state.mounts.foldl (fun m c => Registry.insert m c.job_id c) [])
  else
    Except.ok []

/-- `AntaresManager::new`, restricted to the registry it constructs:
`Self::load_state(&paths.state_file).unwrap_or_default()`. -/
def managerNew (env : Env) (paths : AntaresPaths) : Registry :=
  match load_state env paths.state_file with
  | Except.ok m => m
  | Except.error _ => []

/-- `AntaresManager::persist_state`: serialize the full snapshot of the
registry values, create the state file's parent directory if any, and
overwrite the state file.  Returns the result together with the attempted
effect trace. -/
def persist_state (env : Env) (paths : AntaresPaths) (instances : Registry) :
    Except IOErr Unit × List Ev :=
  let mounts := Registry.values instances
  match env.to_toml ⟨mounts⟩ with
  | Except.error e => (Except.error ⟨ErrorKind.other, "encode state: " ++ e⟩, [])
  | Except.ok data =>
    match pathParent paths.state_file with
    | some parent =>
      match env.create_dir_all parent with
      | Except.error e => (Except.error e, [Ev.mkdir parent])
      | Except.ok _ =>
        (env.write_file paths.state_file data,
         [Ev.mkdir parent, Ev.writeState paths.state_file data])
    | none =>
      (env.write_file paths.state_file data, [Ev.writeState paths.state_file data])

/-- `AntaresManager::mount_job_at`.  The two freshly generated UUIDs
(`Uuid::new_v4`) are passed in as `upper_uuid` and `cl_uuid`.  Returns the
call's result, the registry afterwards, and the attempted effect trace. -/
def mount_job_at (env : Env) (paths : AntaresPaths) (instances : Registry)
    (job_id : String) (mountpoint : Path) (cl_name : Option String)
    (upper_uuid cl_uuid : String) :
    Except IOErr AntaresConfig × Registry × List Ev :=
  let upper_id := upper_uuid
  let upper_dir := pathJoin paths.upper_root upper_id
  let clPair : Option String × Option Path :=
    match cl_name with
    | some _ => (some cl_uuid, some (pathJoin paths.cl_root cl_uuid))
    | none => (none, none)
  let cl_id := clPair.1
  let cl_dir := clPair.2
  let afterDirs : List Ev → Except IOErr AntaresConfig × Registry × List Ev :=
    fun evs =>
      let instance_ : AntaresConfig :=
        ⟨job_id, mountpoint, upper_id, upper_dir, cl_dir, cl_id⟩
      let instances' := Registry.insert instances job_id instance_
      let pr := persist_state env paths instances'
      match pr.1 with
      | Except.error e => (Except.error e, instances', evs ++ pr.2)
      | Except.ok _ => (Except.ok instance_, instances', evs ++ pr.2)
  match env.create_dir_all upper_dir with
  | Except.error e => (Except.error e, instances, [Ev.mkdir upper_dir])
  | Except.ok _ =>
    match cl_dir with
    | some cl =>
      match env.create_dir_all cl with
      | Except.error e => (Except.error e, instances, [Ev.mkdir upper_dir, Ev.mkdir cl])
      | Except.ok _ =>
        match env.create_dir_all mountpoint with
        | Except.error e =>
          (Except.error e, instances, [Ev.mkdir upper_dir, Ev.mkdir cl, Ev.mkdir mountpoint])
        | Except.ok _ =>
          afterDirs [Ev.mkdir upper_dir, Ev.mkdir cl, Ev.mkdir mountpoint]
    | none =>
      match env.create_dir_all mountpoint with
      | Except.error e =>
        (Except.error e, instances, [Ev.mkdir upper_dir, Ev.mkdir mountpoint])
      | Except.ok _ =>
        afterDirs [Ev.mkdir upper_dir, Ev.mkdir mountpoint]

/-- `AntaresManager::mount_job`: mount at `{mount_root}/{job_id}`. -/
def mount_job (env : Env) (paths : AntaresPaths) (instances : Registry)
    (job_id : String) (cl_name : Option String) (upper_uuid cl_uuid : String) :
    Except IOErr AntaresConfig × Registry × List Ev :=
  mount_job_at env paths instances job_id (pathJoin paths.mount_root job_id) cl_name
    upper_uuid cl_uuid

/-- `AntaresManager::umount_job`: absent job is `Ok(None)` with no effects;
a spawn failure of `fusermount` propagates before any bookkeeping change;
after the subprocess finishes, its status and stderr are classified for
logging only, the record is removed unconditionally, and the updated
snapshot is persisted. -/
def umount_job (env : Env) (paths : AntaresPaths) (instances : Registry)
    (job_id : String) :
    Except IOErr (Option AntaresConfig) × Registry × List Ev :=
  match Registry.get instances job_id with
  | none => (Except.ok none, instances, [])
  | some config =>
    match env.fusermount_u config.mountpoint with
    | Except.error e => (Except.error e, instances, [Ev.fusermount config.mountpoint])
    | Except.ok output =>
      let _cls := classifyOutput output
      let removed := Registry.get instances job_id
      let instances' := Registry.eraseKey instances job_id
      let pr := persist_state env paths instances'
      match pr.1 with
      | Except.error e =>
        (Except.error e, instances', Ev.fusermount config.mountpoint :: pr.2)
      | Except.ok _ =>
        (Except.ok removed, instances', Ev.fusermount config.mountpoint :: pr.2)

/-- `AntaresManager::list`: snapshot of the registry values. -/
def listInstances (instances : Registry) : List AntaresConfig :=
  Registry.values instances

/-- Run `create_dir_all` on the given directories in order, stopping at the
first failure; returns the list of directories actually attempted and the
error, if any. -/
def mkdirAttempts (env : Env) : List Path → List Path × Option IOErr
  | [] => ([], none)
  | d :: rest =>
    match env.create_dir_all d with
    | Except.error e => ([d], some e)
    | Except.ok _ =>
      let pr := mkdirAttempts env rest
      (d :: pr.1, pr.2)

/-- The directories a `mount_job_at` call creates, in the order the code
creates them: writable layer, changelist layer (if requested),
mountpoint. -/
def mountDirPlan (paths : AntaresPaths) (mountpoint : Path) (cl_name : Option String)
    (upper_uuid cl_uuid : String) : List Path :=
  pathJoin paths.upper_root upper_uuid ::
    ((match cl_name with
      | some _ => [pathJoin paths.cl_root cl_uuid]
      | none => []) ++ [mountpoint])

/-- The record a successful `mount_job_at` call builds from its inputs. -/
def newRecord (paths : AntaresPaths) (job_id : String) (mountpoint : Path)
    (cl_name : Option String) (upper_uuid cl_uuid : String) : AntaresConfig :=
  ⟨job_id, mountpoint, upper_uuid, pathJoin paths.upper_root upper_uuid,
    (match cl_name with
     | some _ => some (pathJoin paths.cl_root cl_uuid)
     | none => none),
    (match cl_name with
     | some _ => some cl_uuid
     | none => none)⟩

/-- A registry is well formed when every entry is keyed by its record's
`job_id` and the keys are distinct — `HashMap` invariants every reachable
registry satisfies. -/
def stateWellFormed (r : Registry) : Prop :=
  (∀ kv ∈ r, kv.2.job_id = kv.1) ∧ (r.map Prod.fst).Nodup

/-! ## Concrete environments and data used by the closed witness theorems -/

/-- Paths used by the concrete scenarios. -/
def demoPaths : AntaresPaths :=
  ⟨["up"], ["cl"], ["mnt"], ["st", "state.toml"]⟩

/-- An environment whose state file exists but holds unparseable content. -/
def envMalformed : Env where
  create_dir_all := fun _ => Except.ok ()
  read_to_string := fun _ => Except.ok "not toml"
  write_file := fun _ _ => Except.ok ()
  path_exists := fun _ => true
  to_toml := fun _ => Except.ok ""
  from_toml := fun _ => Except.error "expected key"
  fusermount_u := fun _ => Except.ok ⟨true, ""⟩

/-- An environment where every effect succeeds and no state file exists. -/
def envAllOk : Env where
  create_dir_all := fun _ => Except.ok ()
  read_to_string := fun _ => Except.ok ""
  write_file := fun _ _ => Except.ok ()
  path_exists := fun _ => false
  to_toml := fun _ => Except.ok "doc"
  from_toml := fun _ => Except.error "empty"
  fusermount_u := fun _ => Except.ok ⟨false, "boom"⟩

/-- An environment where spawning `fusermount` itself fails. -/
def envSpawnFail : Env where
  create_dir_all := fun _ => Except.ok ()
  read_to_string := fun _ => Except.ok ""
  write_file := fun _ _ => Except.ok ()
  path_exists := fun _ => false
  to_toml := fun _ => Except.ok "doc"
  from_toml := fun _ => Except.error "empty"
  fusermount_u := fun _ => Except.error ⟨ErrorKind.notFound, "No such file or directory"⟩

/-- A sample registry entry for job `"jobA"`. -/
def cfgA : AntaresConfig :=
  ⟨"jobA", ["mnt", "jobA"], "u-1", ["up", "u-1"], none, none⟩

/-- An environment where creating the directory `mnt/jobB` fails and every
other effect succeeds. -/
def envMkdirFail : Env where
  create_dir_all := fun p =>
    if p = ["mnt", "jobB"] then
      Except.error ⟨ErrorKind.permissionDenied, "Permission denied"⟩
    else
      Except.ok ()
  read_to_string := fun _ => Except.ok ""
  write_file := fun _ _ => Except.ok ()
  path_exists := fun _ => false
  to_toml := fun _ => Except.ok "doc"
  from_toml := fun _ => Except.error "empty"
  fusermount_u := fun _ => Except.ok ⟨true, ""⟩

/-- An environment where writing the state file fails and every other
effect succeeds. -/
def envWriteFail : Env where
  create_dir_all := fun _ => Except.ok ()
  read_to_string := fun _ => Except.ok ""
  write_file := fun _ _ => Except.error ⟨ErrorKind.permissionDenied, "Read-only file system"⟩
  path_exists := fun _ => false
  to_toml := fun _ => Except.ok "doc"
  from_toml := fun _ => Except.error "empty"
  fusermount_u := fun _ => Except.ok ⟨true, ""⟩

/-- An environment whose serializer emits the document `"DOC"` for any
state and whose parser maps `"DOC"` back to the single-entry state holding
`cfgA`; the state file reads back as `"DOC"`. -/
def envRoundtrip : Env where
  create_dir_all := fun _ => Except.ok ()
  read_to_string := fun _ => Except.ok "DOC"
  write_file := fun _ _ => Except.ok ()
  path_exists := fun _ => true
  to_toml := fun _ => Except.ok "DOC"
  from_toml := fun s => if s = "DOC" then Except.ok ⟨[cfgA]⟩ else Except.error "bad"
  fusermount_u := fun _ => Except.ok ⟨true, ""⟩

/-! ## Registry lemmas -/

/-- Lookup at a matching head entry. -/
theorem Registry.get_cons_pos (kv : String × AntaresConfig) (rest : Registry) (k : String)
    (h : (kv.1 == k) = true) : Registry.get (kv :: rest) k = some kv.2 := by
  unfold Registry.get
  rw [List.find?_cons_of_pos rest
    (show (fun kv : String × AntaresConfig => kv.1 == k) kv = true from h)]
  rfl

/-- Lookup skips a non-matching head entry. -/
theorem Registry.get_cons_neg (kv : String × AntaresConfig) (rest : Registry) (k : String)
    (h : (kv.1 == k) = false) : Registry.get (kv :: rest) k = Registry.get rest k := by
  simp [Registry.get, List.find?_cons_of_neg, h]

/-- `hasKey` on a cons cell. -/
theorem Registry.hasKey_cons (kv : String × AntaresConfig) (rest : Registry) (k : String) :
    Registry.hasKey (kv :: rest) k = ((kv.1 == k) || Registry.hasKey rest k) := by
  simp [Registry.hasKey]

/-- `hasKey` distributes over append. -/
theorem Registry.hasKey_append (m₁ m₂ : Registry) (k : String) :
    Registry.hasKey (m₁ ++ m₂) k = (Registry.hasKey m₁ k || Registry.hasKey m₂ k) := by
  simp [Registry.hasKey]

/-- A key that is not present looks up to `none`. -/
theorem Registry.get_of_hasKey_false (m : Registry) (k : String)
    (h : Registry.hasKey m k = false) : Registry.get m k = none := by
  induction m with
  | nil => rfl
  | cons kv rest ih =>
    rw [Registry.hasKey_cons, Bool.or_eq_false_iff] at h
    rw [Registry.get_cons_neg kv rest k h.1]
    exact ih h.2

/-- A key that is not present has no entries. -/
theorem Registry.countKey_of_hasKey_false (m : Registry) (k : String)
    (h : Registry.hasKey m k = false) : Registry.countKey m k = 0 := by
  induction m with
  | nil => rfl
  | cons kv rest ih =>
    rw [Registry.hasKey_cons, Bool.or_eq_false_iff] at h
    simp only [Registry.countKey, List.filter_cons, h.1, Bool.false_eq_true, if_false]
    exact ih h.2

/-- Inserting a fresh key appends the entry. -/
theorem Registry.insert_of_hasKey_false (m : Registry) (k : String) (v : AntaresConfig)
    (h : Registry.hasKey m k = false) : Registry.insert m k v = m ++ [(k, v)] := by
  rw [Registry.insert, if_neg]
  simp [h]

/-- After an insert, the key looks up to the inserted value. -/
theorem Registry.get_insert (m : Registry) (k : String) (v : AntaresConfig) :
    Registry.get (Registry.insert m k v) k = some v := by
  unfold Registry.insert
  by_cases h : Registry.hasKey m k = true
  · rw [if_pos h]
    induction m with
    | nil => simp [Registry.hasKey] at h
    | cons kv rest ih =>
      cases hk : (kv.1 == k) with
      | true =>
        simp only [List.map_cons, hk, if_true]
        exact Registry.get_cons_pos (k, v) _ k (by simp)
      | false =>
        simp only [List.map_cons, hk, Bool.false_eq_true, if_false]
        rw [Registry.get_cons_neg kv _ k hk]
        rw [Registry.hasKey_cons, hk, Bool.false_or] at h
        exact ih h
  · rw [if_neg h]
    rw [Bool.not_eq_true] at h
    induction m with
    | nil => exact Registry.get_cons_pos (k, v) [] k (by simp)
    | cons kv rest ih =>
      rw [Registry.hasKey_cons, Bool.or_eq_false_iff] at h
      rw [List.cons_append, Registry.get_cons_neg kv _ k h.1]
      exact ih h.2

/-- A successful lookup means the key is present. -/
theorem Registry.hasKey_of_get_some (m : Registry) (k : String) (v : AntaresConfig)
    (h : Registry.get m k = some v) : Registry.hasKey m k = true := by
  by_contra hc
  rw [Bool.not_eq_true] at hc
  rw [Registry.get_of_hasKey_false m k hc] at h
  exact Option.noConfusion h

/-- With distinct keys, a present key has exactly one entry. -/
theorem Registry.countKey_eq_one (m : Registry) (k : String)
    (hnd : (m.map Prod.fst).Nodup) (h : Registry.hasKey m k = true) :
    Registry.countKey m k = 1 := by
  induction m with
  | nil => simp [Registry.hasKey] at h
  | cons kv rest ih =>
    rw [List.map_cons, List.nodup_cons] at hnd
    rw [Registry.hasKey_cons] at h
    cases hk : (kv.1 == k) with
    | true =>
      have hkeq : kv.1 = k := eq_of_beq hk
      have hz : Registry.hasKey rest k = false := by
        cases hzc : Registry.hasKey rest k with
        | false => rfl
        | true =>
          exfalso
          apply hnd.1
          rw [hkeq]
          unfold Registry.hasKey at hzc
          rw [List.any_eq_true] at hzc
          obtain ⟨kv', hmem, hbeq⟩ := hzc
          rw [← eq_of_beq hbeq]
          exact List.mem_map_of_mem Prod.fst hmem
      simp only [Registry.countKey, List.filter_cons, hk, if_true, List.length_cons]
      have := Registry.countKey_of_hasKey_false rest k hz
      unfold Registry.countKey at this
      rw [this]
    | false =>
      rw [hk, Bool.false_or] at h
      simp only [Registry.countKey, List.filter_cons, hk, Bool.false_eq_true, if_false]
      exact ih hnd.2 h

/-- Replacing an existing key leaves the key list unchanged. -/
theorem Registry.keys_insert_of_hasKey (m : Registry) (k : String) (v : AntaresConfig)
    (h : Registry.hasKey m k = true) :
    (Registry.insert m k v).map Prod.fst = m.map Prod.fst := by
  rw [Registry.insert, if_pos h, List.map_map]
  apply List.map_congr_left
  intro kv _
  cases hk : (kv.1 == k) with
  | true => simp [Function.comp, hk, eq_of_beq hk]
  | false => simp [Function.comp, hk]

/-- The inserted key is present afterwards. -/
theorem Registry.hasKey_insert (m : Registry) (k : String) (v : AntaresConfig) :
    Registry.hasKey (Registry.insert m k v) k = true :=
  Registry.hasKey_of_get_some _ k v (Registry.get_insert m k v)

/-- Folding `insert` over records whose keys are fresh and distinct appends
them in order. -/
theorem Registry.foldl_insert_fresh (l : List AntaresConfig) (m : Registry)
    (hfresh : ∀ c ∈ l, Registry.hasKey m c.job_id = false)
    (hnd : (l.map AntaresConfig.job_id).Nodup) :
    l.foldl (fun acc c => Registry.insert acc c.job_id c) m =
      m ++ l.map (fun c => (c.job_id, c)) := by
  induction l generalizing m with
  | nil => simp
  | cons c0 rest ih =>
    rw [List.foldl_cons,
      Registry.insert_of_hasKey_false m c0.job_id c0 (hfresh c0 (List.mem_cons_self c0 rest))]
    rw [List.map_cons, List.nodup_cons] at hnd
    rw [ih (m ++ [(c0.job_id, c0)]) ?_ hnd.2]
    · simp
    · intro c hc
      rw [Registry.hasKey_append, Bool.or_eq_false_iff]
      refine ⟨hfresh c (List.mem_cons_of_mem c0 hc), ?_⟩
      cases hzc : Registry.hasKey [(c0.job_id, c0)] c.job_id with
      | false => rfl
      | true =>
        exfalso
        apply hnd.1
        unfold Registry.hasKey at hzc
        rw [List.any_eq_true] at hzc
        obtain ⟨kv', hmem, hbeq⟩ := hzc
        rw [List.mem_singleton] at hmem
        rw [hmem] at hbeq
        have h2 : c0.job_id = c.job_id := eq_of_beq hbeq
        rw [h2]
        exact List.mem_map_of_mem AntaresConfig.job_id hc

/-- Rebuilding a well-formed registry from its values by keyed insertion is
the identity. -/
theorem Registry.foldl_insert_values (r : Registry) (hwf : stateWellFormed r) :
    (Registry.values r).foldl (fun acc c => Registry.insert acc c.job_id c) [] = r := by
  have hkeys : (Registry.values r).map AntaresConfig.job_id = r.map Prod.fst := by
    rw [Registry.values, List.map_map]
    exact List.map_congr_left (fun kv hkv => hwf.1 kv hkv)
  rw [Registry.foldl_insert_fresh (Registry.values r) [] (fun c _ => rfl)
    (by rw [hkeys]; exact hwf.2)]
  rw [List.nil_append, Registry.values, List.map_map]
  have : r.map ((fun c => (c.job_id, c)) ∘ Prod.snd) = r.map id :=
    List.map_congr_left (fun kv hkv => by
      simp [Function.comp, hwf.1 kv hkv])
  rw [this, List.map_id]

/-! ## Claims -/

/-- C1 (counterexample): with a state file that exists but is malformed,
`load_state` itself fails with an `InvalidData` error, yet the manager
constructor (`AntaresManager::new`, via `unwrap_or_default`) silently
discards that error and starts with an empty registry — refuting the
claim that the failure is propagated at manager construction and the
unreadable state never silently replaced by an empty registry. -/
theorem C1_counterexample :
    envMalformed.path_exists demoPaths.state_file = true ∧
    envMalformed.read_to_string demoPaths.state_file = Except.ok "not toml" ∧
    envMalformed.from_toml "not toml" = Except.error "expected key" ∧
    load_state envMalformed demoPaths.state_file =
      Except.error ⟨ErrorKind.invalidData, "parse state: expected key"⟩ ∧
    managerNew envMalformed demoPaths = [] := by
  refine ⟨rfl, rfl, rfl, ?_, ?_⟩ <;> rfl

/-- C1 (amended): `load_state` on a present-but-malformed state file fails
with a data-format (`InvalidData`) error propagated to its caller;
however, at manager construction this error is silently discarded
(`unwrap_or_default`) and the manager starts with an empty registry. -/
theorem C1_load_malformed_fails_but_new_swallows (env : Env) (paths : AntaresPaths)
    (c e : String)
    (hex : env.path_exists paths.state_file = true)
    (hrd : env.read_to_string paths.state_file = Except.ok c)
    (hpe : env.from_toml c = Except.error e) :
    load_state env paths.state_file =
      Except.error ⟨ErrorKind.invalidData, "parse state: " ++ e⟩ ∧
    managerNew env paths = [] := by
  simp [load_state, managerNew, hex, hrd, hpe]

/-- C1 witness: the amended claim at the concrete malformed environment. -/
theorem C1_witness :
    envMalformed.path_exists demoPaths.state_file = true ∧
    envMalformed.read_to_string demoPaths.state_file = Except.ok "not toml" ∧
    envMalformed.from_toml "not toml" = Except.error "expected key" ∧
    (load_state envMalformed demoPaths.state_file =
        Except.error ⟨ErrorKind.invalidData, "parse state: expected key"⟩ ∧
      managerNew envMalformed demoPaths = []) :=
  ⟨rfl, rfl, rfl,
    C1_load_malformed_fails_but_new_swallows envMalformed demoPaths
      "not toml" "expected key" rfl rfl rfl⟩

/-- C8: unmounting a job with no active record returns `Ok(None)` with no
side effects: no external unmount, registry unchanged, nothing written
(empty effect trace, so the state document is untouched). -/
theorem C8_umount_absent_no_effects (env : Env) (paths : AntaresPaths)
    (r : Registry) (jid : String)
    (hnone : Registry.get r jid = none) :
    umount_job env paths r jid = (Except.ok none, r, []) := by
  simp [umount_job, hnone]

/-- C8 witness: unmounting `"ghost"` from a one-entry registry. -/
theorem C8_witness :
    Registry.get [("jobA", cfgA)] "ghost" = none ∧
    umount_job envAllOk demoPaths [("jobA", cfgA)] "ghost" =
      (Except.ok none, [("jobA", cfgA)], []) :=
  ⟨rfl, C8_umount_absent_no_effects envAllOk demoPaths [("jobA", cfgA)] "ghost" rfl⟩

/-- C10: if spawning `fusermount` itself fails, `umount_job` returns that
error with no bookkeeping change: the record stays in the registry and
nothing is persisted (the trace holds only the attempted spawn). -/
theorem C10_spawn_failure_no_bookkeeping (env : Env) (paths : AntaresPaths)
    (r : Registry) (jid : String) (cfg : AntaresConfig) (e : IOErr)
    (hget : Registry.get r jid = some cfg)
    (hsp : env.fusermount_u cfg.mountpoint = Except.error e) :
    umount_job env paths r jid = (Except.error e, r, [Ev.fusermount cfg.mountpoint]) := by
  simp [umount_job, hget, hsp]

/-- C10 witness: spawn failure on the concrete registry. -/
theorem C10_witness :
    Registry.get [("jobA", cfgA)] "jobA" = some cfgA ∧
    envSpawnFail.fusermount_u cfgA.mountpoint =
      Except.error ⟨ErrorKind.notFound, "No such file or directory"⟩ ∧
    umount_job envSpawnFail demoPaths [("jobA", cfgA)] "jobA" =
      (Except.error ⟨ErrorKind.notFound, "No such file or directory"⟩,
        [("jobA", cfgA)], [Ev.fusermount cfgA.mountpoint]) :=
  ⟨rfl, rfl,
    C10_spawn_failure_no_bookkeeping envSpawnFail demoPaths [("jobA", cfgA)] "jobA"
      cfgA ⟨ErrorKind.notFound, "No such file or directory"⟩ rfl rfl⟩

/-- C9: when the state file does not exist, loading succeeds with an empty
registry, and a manager constructed over that environment starts empty. -/
theorem C9_absent_file_empty_registry (env : Env) (paths : AntaresPaths)
    (hne : env.path_exists paths.state_file = false) :
    load_state env paths.state_file = Except.ok [] ∧ managerNew env paths = [] := by
  simp [load_state, managerNew, hne]

/-- C9 witness: the all-ok environment with no state file. -/
theorem C9_witness :
    envAllOk.path_exists demoPaths.state_file = false ∧
    (load_state envAllOk demoPaths.state_file = Except.ok [] ∧
      managerNew envAllOk demoPaths = []) :=
  ⟨rfl, C9_absent_file_empty_registry envAllOk demoPaths rfl⟩

/-- When every planned directory creation succeeds and persistence
succeeds, `mount_job_at` returns the new record, the registry with it
inserted, and the mkdir trace followed by the persist trace. -/
theorem mount_job_at_all_ok (env : Env) (paths : AntaresPaths) (r : Registry)
    (jid : String) (mp : Path) (clname : Option String) (u c : String) (pevs : List Ev)
    (hdirs : mkdirAttempts env (mountDirPlan paths mp clname u c) =
      (mountDirPlan paths mp clname u c, none))
    (hper : persist_state env paths
        (Registry.insert r jid (newRecord paths jid mp clname u c)) =
      (Except.ok (), pevs)) :
    mount_job_at env paths r jid mp clname u c =
      (Except.ok (newRecord paths jid mp clname u c),
        Registry.insert r jid (newRecord paths jid mp clname u c),
        (mountDirPlan paths mp clname u c).map Ev.mkdir ++ pevs) := by
  cases clname with
  | none =>
    cases h1 : env.create_dir_all (pathJoin paths.upper_root u) with
    | error e1 =>
      rw [mountDirPlan] at hdirs
      simp [mkdirAttempts, h1] at hdirs
    | ok u1 =>
      cases h2 : env.create_dir_all mp with
      | error e2 =>
        rw [mountDirPlan] at hdirs
        simp [mkdirAttempts, h1, h2] at hdirs
      | ok u2 =>
        simp only [newRecord] at hper
        simp [mount_job_at, mountDirPlan, newRecord, h1, h2, hper]
  | some clv =>
    cases h1 : env.create_dir_all (pathJoin paths.upper_root u) with
    | error e1 =>
      rw [mountDirPlan] at hdirs
      simp [mkdirAttempts, h1] at hdirs
    | ok u1 =>
      cases h2 : env.create_dir_all (pathJoin paths.cl_root c) with
      | error e2 =>
        rw [mountDirPlan] at hdirs
        simp [mkdirAttempts, h1, h2] at hdirs
      | ok u2 =>
        cases h3 : env.create_dir_all mp with
        | error e3 =>
          rw [mountDirPlan] at hdirs
          simp [mkdirAttempts, h1, h2, h3] at hdirs
        | ok u3 =>
          simp only [newRecord] at hper
          simp [mount_job_at, mountDirPlan, newRecord, h1, h2, h3, hper]

/-- When every planned directory creation succeeds but persistence fails,
`mount_job_at` returns that error while the registry already holds the
new record. -/
theorem mount_job_at_persist_err (env : Env) (paths : AntaresPaths) (r : Registry)
    (jid : String) (mp : Path) (clname : Option String) (u c : String)
    (e : IOErr) (pevs : List Ev)
    (hdirs : mkdirAttempts env (mountDirPlan paths mp clname u c) =
      (mountDirPlan paths mp clname u c, none))
    (hper : persist_state env paths
        (Registry.insert r jid (newRecord paths jid mp clname u c)) =
      (Except.error e, pevs)) :
    mount_job_at env paths r jid mp clname u c =
      (Except.error e,
        Registry.insert r jid (newRecord paths jid mp clname u c),
        (mountDirPlan paths mp clname u c).map Ev.mkdir ++ pevs) := by
  cases clname with
  | none =>
    cases h1 : env.create_dir_all (pathJoin paths.upper_root u) with
    | error e1 =>
      rw [mountDirPlan] at hdirs
      simp [mkdirAttempts, h1] at hdirs
    | ok u1 =>
      cases h2 : env.create_dir_all mp with
      | error e2 =>
        rw [mountDirPlan] at hdirs
        simp [mkdirAttempts, h1, h2] at hdirs
      | ok u2 =>
        simp only [newRecord] at hper
        simp [mount_job_at, mountDirPlan, newRecord, h1, h2, hper]
  | some clv =>
    cases h1 : env.create_dir_all (pathJoin paths.upper_root u) with
    | error e1 =>
      rw [mountDirPlan] at hdirs
      simp [mkdirAttempts, h1] at hdirs
    | ok u1 =>
      cases h2 : env.create_dir_all (pathJoin paths.cl_root c) with
      | error e2 =>
        rw [mountDirPlan] at hdirs
        simp [mkdirAttempts, h1, h2] at hdirs
      | ok u2 =>
        cases h3 : env.create_dir_all mp with
        | error e3 =>
          rw [mountDirPlan] at hdirs
          simp [mkdirAttempts, h1, h2, h3] at hdirs
        | ok u3 =>
          simp only [newRecord] at hper
          simp [mount_job_at, mountDirPlan, newRecord, h1, h2, h3, hper]

/-- C3: the writable-layer, changelist (if requested) and mountpoint
directories are created in exactly that order; if one of these creations
fails, the call aborts with that error, the registry is untouched, and
the trace holds only the attempted mkdir steps — in particular no state
write is performed. -/
theorem C3_mkdir_order_and_abort (env : Env) (paths : AntaresPaths) (r : Registry)
    (jid : String) (mp : Path) (clname : Option String) (u c : String)
    (attempted : List Path) (e : IOErr)
    (hfail : mkdirAttempts env (mountDirPlan paths mp clname u c) = (attempted, some e)) :
    mount_job_at env paths r jid mp clname u c =
      (Except.error e, r, attempted.map Ev.mkdir) := by
  cases clname with
  | none =>
    cases h1 : env.create_dir_all (pathJoin paths.upper_root u) with
    | error e1 =>
      rw [mountDirPlan] at hfail
      simp [mkdirAttempts, h1] at hfail
      obtain ⟨ha, he⟩ := hfail
      subst ha
      subst he
      simp [mount_job_at, h1]
    | ok u1 =>
      cases h2 : env.create_dir_all mp with
      | error e2 =>
        rw [mountDirPlan] at hfail
        simp [mkdirAttempts, h1, h2] at hfail
        obtain ⟨ha, he⟩ := hfail
        subst ha
        subst he
        simp [mount_job_at, h1, h2]
      | ok u2 =>
        rw [mountDirPlan] at hfail
        simp [mkdirAttempts, h1, h2] at hfail
  | some clv =>
    cases h1 : env.create_dir_all (pathJoin paths.upper_root u) with
    | error e1 =>
      rw [mountDirPlan] at hfail
      simp [mkdirAttempts, h1] at hfail
      obtain ⟨ha, he⟩ := hfail
      subst ha
      subst he
      simp [mount_job_at, h1]
    | ok u1 =>
      cases h2 : env.create_dir_all (pathJoin paths.cl_root c) with
      | error e2 =>
        rw [mountDirPlan] at hfail
        simp [mkdirAttempts, h1, h2] at hfail
        obtain ⟨ha, he⟩ := hfail
        subst ha
        subst he
        simp [mount_job_at, h1, h2]
      | ok u2 =>
        cases h3 : env.create_dir_all mp with
        | error e3 =>
          rw [mountDirPlan] at hfail
          simp [mkdirAttempts, h1, h2, h3] at hfail
          obtain ⟨ha, he⟩ := hfail
          subst ha
          subst he
          simp [mount_job_at, h1, h2, h3]
        | ok u3 =>
          rw [mountDirPlan] at hfail
          simp [mkdirAttempts, h1, h2, h3] at hfail

/-- C2: unmounting an active job removes its record, persists the updated
snapshot and returns the removed record for every possible subprocess
output `out` — success, a "not mounted"/"Invalid argument" diagnostic, or
any other nonzero status; no exit outcome aborts the bookkeeping
removal. -/
theorem C2_umount_removes_regardless_of_exit (env : Env) (paths : AntaresPaths)
    (r : Registry) (jid : String) (cfg : AntaresConfig) (out : CmdOutput) (pevs : List Ev)
    (hget : Registry.get r jid = some cfg)
    (hrun : env.fusermount_u cfg.mountpoint = Except.ok out)
    (hper : persist_state env paths (Registry.eraseKey r jid) = (Except.ok (), pevs)) :
    umount_job env paths r jid =
      (Except.ok (some cfg), Registry.eraseKey r jid,
        Ev.fusermount cfg.mountpoint :: pevs) := by
  simp [umount_job, hget, hrun, hper]

/-- C2 witness: unmounting `"jobA"` when the subprocess exits nonzero with
an unclassified diagnostic (`"boom"`). -/
theorem C2_witness :
    Registry.get [("jobA", cfgA)] "jobA" = some cfgA ∧
    envAllOk.fusermount_u cfgA.mountpoint = Except.ok ⟨false, "boom"⟩ ∧
    umount_job envAllOk demoPaths [("jobA", cfgA)] "jobA" =
      (Except.ok (some cfgA), Registry.eraseKey [("jobA", cfgA)] "jobA",
        Ev.fusermount cfgA.mountpoint ::
          [Ev.mkdir ["st"], Ev.writeState ["st", "state.toml"] "doc"]) :=
  ⟨rfl, rfl,
    C2_umount_removes_regardless_of_exit envAllOk demoPaths [("jobA", cfgA)] "jobA"
      cfgA ⟨false, "boom"⟩ [Ev.mkdir ["st"], Ev.writeState ["st", "state.toml"] "doc"]
      rfl rfl rfl⟩

/-- C3 witness: mounting `"jobB"` where creating the mountpoint directory
fails after the writable-layer and changelist directories were created. -/
theorem C3_witness :
    mkdirAttempts envMkdirFail (mountDirPlan demoPaths ["mnt", "jobB"] (some "cl1") "u-2" "c-2") =
      (mountDirPlan demoPaths ["mnt", "jobB"] (some "cl1") "u-2" "c-2",
        some ⟨ErrorKind.permissionDenied, "Permission denied"⟩) ∧
    mount_job_at envMkdirFail demoPaths [] "jobB" ["mnt", "jobB"] (some "cl1") "u-2" "c-2" =
      (Except.error ⟨ErrorKind.permissionDenied, "Permission denied"⟩, [],
        [Ev.mkdir ["up", "u-2"], Ev.mkdir ["cl", "c-2"], Ev.mkdir ["mnt", "jobB"]]) :=
  ⟨rfl,
    C3_mkdir_order_and_abort envMkdirFail demoPaths [] "jobB" ["mnt", "jobB"] (some "cl1")
      "u-2" "c-2" (mountDirPlan demoPaths ["mnt", "jobB"] (some "cl1") "u-2" "c-2")
      ⟨ErrorKind.permissionDenied, "Permission denied"⟩ rfl⟩

/-- C4: mounting a `job_id` that is already active succeeds without a
conflict error and replaces the registry entry wholesale; afterwards the
registry still has exactly one record for that `job_id`, and the snapshot
that got persisted is the one with the entry replaced. -/
theorem C4_remount_last_write_wins (env : Env) (paths : AntaresPaths) (r : Registry)
    (jid : String) (mp : Path) (clname : Option String) (u c : String)
    (oldcfg : AntaresConfig) (pevs : List Ev)
    (hnd : (r.map Prod.fst).Nodup)
    (hactive : Registry.get r jid = some oldcfg)
    (hdirs : mkdirAttempts env (mountDirPlan paths mp clname u c) =
      (mountDirPlan paths mp clname u c, none))
    (hper : persist_state env paths
        (Registry.insert r jid (newRecord paths jid mp clname u c)) =
      (Except.ok (), pevs)) :
    mount_job_at env paths r jid mp clname u c =
      (Except.ok (newRecord paths jid mp clname u c),
        Registry.insert r jid (newRecord paths jid mp clname u c),
        (mountDirPlan paths mp clname u c).map Ev.mkdir ++ pevs) ∧
    Registry.get (Registry.insert r jid (newRecord paths jid mp clname u c)) jid =
      some (newRecord paths jid mp clname u c) ∧
    Registry.countKey (Registry.insert r jid (newRecord paths jid mp clname u c)) jid = 1 := by
  refine ⟨mount_job_at_all_ok env paths r jid mp clname u c pevs hdirs hper,
    Registry.get_insert r jid (newRecord paths jid mp clname u c), ?_⟩
  have hk := Registry.hasKey_of_get_some r jid oldcfg hactive
  apply Registry.countKey_eq_one
  · rw [Registry.keys_insert_of_hasKey r jid (newRecord paths jid mp clname u c) hk]
    exact hnd
  · exact Registry.hasKey_insert r jid (newRecord paths jid mp clname u c)

/-- C4 witness: remounting the already-active `"jobA"` at a new mountpoint;
the old record is replaced and exactly one `"jobA"` entry remains. -/
theorem C4_witness :
    ((([("jobA", cfgA)] : Registry).map Prod.fst).Nodup) ∧
    Registry.get [("jobA", cfgA)] "jobA" = some cfgA ∧
    (mount_job_at envAllOk demoPaths [("jobA", cfgA)] "jobA" ["elsewhere"] none "u-9" "c-9" =
        (Except.ok (newRecord demoPaths "jobA" ["elsewhere"] none "u-9" "c-9"),
          Registry.insert [("jobA", cfgA)] "jobA"
            (newRecord demoPaths "jobA" ["elsewhere"] none "u-9" "c-9"),
          (mountDirPlan demoPaths ["elsewhere"] none "u-9" "c-9").map Ev.mkdir ++
            [Ev.mkdir ["st"], Ev.writeState ["st", "state.toml"] "doc"]) ∧
      Registry.get
          (Registry.insert [("jobA", cfgA)] "jobA"
            (newRecord demoPaths "jobA" ["elsewhere"] none "u-9" "c-9")) "jobA" =
        some (newRecord demoPaths "jobA" ["elsewhere"] none "u-9" "c-9") ∧
      Registry.countKey
          (Registry.insert [("jobA", cfgA)] "jobA"
            (newRecord demoPaths "jobA" ["elsewhere"] none "u-9" "c-9")) "jobA" = 1) :=
  ⟨by decide, rfl,
    C4_remount_last_write_wins envAllOk demoPaths [("jobA", cfgA)] "jobA" ["elsewhere"]
      none "u-9" "c-9" cfgA [Ev.mkdir ["st"], Ev.writeState ["st", "state.toml"] "doc"]
      (by decide) rfl rfl rfl⟩

/-- C5: when every directory creation succeeds but persisting the snapshot
fails, the error is returned to the caller while the in-memory registry
already holds the new record. -/
theorem C5_persist_failure_record_still_registered (env : Env) (paths : AntaresPaths)
    (r : Registry) (jid : String) (mp : Path) (clname : Option String) (u c : String)
    (e : IOErr) (pevs : List Ev)
    (hdirs : mkdirAttempts env (mountDirPlan paths mp clname u c) =
      (mountDirPlan paths mp clname u c, none))
    (hper : persist_state env paths
        (Registry.insert r jid (newRecord paths jid mp clname u c)) =
      (Except.error e, pevs)) :
    mount_job_at env paths r jid mp clname u c =
      (Except.error e,
        Registry.insert r jid (newRecord paths jid mp clname u c),
        (mountDirPlan paths mp clname u c).map Ev.mkdir ++ pevs) ∧
    Registry.get (Registry.insert r jid (newRecord paths jid mp clname u c)) jid =
      some (newRecord paths jid mp clname u c) :=
  ⟨mount_job_at_persist_err env paths r jid mp clname u c e pevs hdirs hper,
    Registry.get_insert r jid (newRecord paths jid mp clname u c)⟩

/-- C5 witness: mounting `"jobD"` over an environment whose state-file
write fails; the call errors yet the registry holds the new record. -/
theorem C5_witness :
    mkdirAttempts envWriteFail (mountDirPlan demoPaths ["mnt", "jobD"] none "u-5" "c-5") =
      (mountDirPlan demoPaths ["mnt", "jobD"] none "u-5" "c-5", none) ∧
    persist_state envWriteFail demoPaths
        (Registry.insert [] "jobD" (newRecord demoPaths "jobD" ["mnt", "jobD"] none "u-5" "c-5")) =
      (Except.error ⟨ErrorKind.permissionDenied, "Read-only file system"⟩,
        [Ev.mkdir ["st"], Ev.writeState ["st", "state.toml"] "doc"]) ∧
    (mount_job_at envWriteFail demoPaths [] "jobD" ["mnt", "jobD"] none "u-5" "c-5" =
        (Except.error ⟨ErrorKind.permissionDenied, "Read-only file system"⟩,
          Registry.insert [] "jobD" (newRecord demoPaths "jobD" ["mnt", "jobD"] none "u-5" "c-5"),
          (mountDirPlan demoPaths ["mnt", "jobD"] none "u-5" "c-5").map Ev.mkdir ++
            [Ev.mkdir ["st"], Ev.writeState ["st", "state.toml"] "doc"]) ∧
      Registry.get
          (Registry.insert [] "jobD"
            (newRecord demoPaths "jobD" ["mnt", "jobD"] none "u-5" "c-5")) "jobD" =
        some (newRecord demoPaths "jobD" ["mnt", "jobD"] none "u-5" "c-5")) :=
  ⟨rfl, rfl,
    C5_persist_failure_record_still_registered envWriteFail demoPaths [] "jobD"
      ["mnt", "jobD"] none "u-5" "c-5" ⟨ErrorKind.permissionDenied, "Read-only file system"⟩
      [Ev.mkdir ["st"], Ev.writeState ["st", "state.toml"] "doc"] rfl rfl⟩

/-- C6: persisting a well-formed registry writes a document that, when the
external serializer round-trips it, loads back to exactly the same
`job_id → record` associations (here: the identical registry), including
records with absent changelist fields. -/
theorem C6_persist_then_load_roundtrip (envS envL : Env) (paths : AntaresPaths)
    (r : Registry) (data : String) (pevs : List Ev)
    (hwf : stateWellFormed r)
    (hsave : persist_state envS paths r = (Except.ok (), pevs))
    (hdoc : envS.to_toml ⟨Registry.values r⟩ = Except.ok data)
    (hrt : envL.from_toml data = Except.ok ⟨Registry.values r⟩)
    (hex : envL.path_exists paths.state_file = true)
    (hrd : envL.read_to_string paths.state_file = Except.ok data) :
    Ev.writeState paths.state_file data ∈ pevs ∧
    load_state envL paths.state_file = Except.ok r := by
  constructor
  · simp only [persist_state, hdoc] at hsave
    cases hp : pathParent paths.state_file with
    | some parent =>
      simp only [hp] at hsave
      cases hcd : envS.create_dir_all parent with
      | error e1 =>
        rw [hcd] at hsave
        simp at hsave
      | ok u1 =>
        rw [hcd] at hsave
        have := congrArg Prod.snd hsave
        simp at this
        rw [← this]
        simp
    | none =>
      simp only [hp] at hsave
      have := congrArg Prod.snd hsave
      simp at this
      rw [← this]
      simp
  · simp [load_state, hex, hrd, hrt]
    exact Registry.foldl_insert_values r hwf

/-- C6 witness: the one-entry registry holding `cfgA` (with both optional
changelist fields absent) persists to `"DOC"` and loads back identically. -/
theorem C6_witness :
    stateWellFormed [("jobA", cfgA)] ∧
    persist_state envRoundtrip demoPaths [("jobA", cfgA)] =
      (Except.ok (), [Ev.mkdir ["st"], Ev.writeState ["st", "state.toml"] "DOC"]) ∧
    envRoundtrip.to_toml ⟨Registry.values [("jobA", cfgA)]⟩ = Except.ok "DOC" ∧
    envRoundtrip.from_toml "DOC" = Except.ok ⟨Registry.values [("jobA", cfgA)]⟩ ∧
    (Ev.writeState demoPaths.state_file "DOC" ∈
        [Ev.mkdir ["st"], Ev.writeState ["st", "state.toml"] "DOC"] ∧
      load_state envRoundtrip demoPaths.state_file = Except.ok [("jobA", cfgA)]) :=
  ⟨⟨fun kv hkv => by
      simp at hkv
      subst hkv
      rfl,
    by decide⟩,
    rfl, rfl, rfl,
    C6_persist_then_load_roundtrip envRoundtrip envRoundtrip demoPaths [("jobA", cfgA)]
      "DOC" [Ev.mkdir ["st"], Ev.writeState ["st", "state.toml"] "DOC"]
      ⟨fun kv hkv => by
          simp at hkv
          subst hkv
          rfl,
        by decide⟩ rfl rfl rfl rfl rfl⟩

/-- C7: a successful `mount_job_at` returns a record whose `mountpoint` is
exactly the caller-supplied path, whose `cl_id`/`cl_dir` are both absent
when no changelist name was supplied and both present when one was, and
for which `cl_dir` is `Some` iff `cl_id` is `Some`. -/
theorem C7_returned_record_shape (env : Env) (paths : AntaresPaths) (r : Registry)
    (jid : String) (mp : Path) (clname : Option String) (u c : String)
    (cfg : AntaresConfig) (r' : Registry) (t : List Ev)
    (hok : mount_job_at env paths r jid mp clname u c = (Except.ok cfg, r', t)) :
    cfg.mountpoint = mp ∧
    cfg.cl_id.isSome = cfg.cl_dir.isSome ∧
    (clname = none → cfg.cl_id = none ∧ cfg.cl_dir = none) ∧
    (clname.isSome = true → cfg.cl_id = some c ∧
      cfg.cl_dir = some (pathJoin paths.cl_root c)) := by
  cases clname with
  | none =>
    cases h1 : env.create_dir_all (pathJoin paths.upper_root u) with
    | error e1 => simp [mount_job_at, h1] at hok
    | ok u1 =>
      cases h2 : env.create_dir_all mp with
      | error e2 => simp [mount_job_at, h1, h2] at hok
      | ok u2 =>
        simp only [mount_job_at, h1, h2] at hok
        split at hok
        · simp at hok
        · simp only [Prod.mk.injEq, Except.ok.injEq] at hok
          rw [← hok.1]
          simp
  | some clv =>
    cases h1 : env.create_dir_all (pathJoin paths.upper_root u) with
    | error e1 => simp [mount_job_at, h1] at hok
    | ok u1 =>
      cases h2 : env.create_dir_all (pathJoin paths.cl_root c) with
      | error e2 => simp [mount_job_at, h1, h2] at hok
      | ok u2 =>
        cases h3 : env.create_dir_all mp with
        | error e3 => simp [mount_job_at, h1, h2, h3] at hok
        | ok u3 =>
          simp only [mount_job_at, h1, h2, h3] at hok
          split at hok
          · simp at hok
          · simp only [Prod.mk.injEq, Except.ok.injEq] at hok
            rw [← hok.1]
            simp

/-- C7 witness: mounting `"jobC"` at the arbitrary directory `home/ws`
(outside the configured mountpoint root `mnt`) with a changelist name. -/
theorem C7_witness :
    mount_job_at envAllOk demoPaths [] "jobC" ["home", "ws"] (some "clX") "u-7" "c-7" =
      (Except.ok ⟨"jobC", ["home", "ws"], "u-7", ["up", "u-7"], some ["cl", "c-7"], some "c-7"⟩,
        [("jobC", ⟨"jobC", ["home", "ws"], "u-7", ["up", "u-7"], some ["cl", "c-7"], some "c-7"⟩)],
        [Ev.mkdir ["up", "u-7"], Ev.mkdir ["cl", "c-7"], Ev.mkdir ["home", "ws"],
          Ev.mkdir ["st"], Ev.writeState ["st", "state.toml"] "doc"]) ∧
    ((⟨"jobC", ["home", "ws"], "u-7", ["up", "u-7"], some ["cl", "c-7"], some "c-7"⟩ :
        AntaresConfig).mountpoint = ["home", "ws"] ∧
      (Option.some "c-7").isSome = (Option.some (["cl", "c-7"] : Path)).isSome ∧
      ((some "clX" : Option String) = none →
        (some "c-7" : Option String) = none ∧ (some ["cl", "c-7"] : Option Path) = none) ∧
      ((some "clX" : Option String).isSome = true →
        (some "c-7" : Option String) = some "c-7" ∧
          (some ["cl", "c-7"] : Option Path) = some (pathJoin demoPaths.cl_root "c-7"))) :=
  ⟨rfl,
    C7_returned_record_shape envAllOk demoPaths [] "jobC" ["home", "ws"] (some "clX")
      "u-7" "c-7"
      ⟨"jobC", ["home", "ws"], "u-7", ["up", "u-7"], some ["cl", "c-7"], some "c-7"⟩
      [("jobC", ⟨"jobC", ["home", "ws"], "u-7", ["up", "u-7"], some ["cl", "c-7"], some "c-7"⟩)]
      [Ev.mkdir ["up", "u-7"], Ev.mkdir ["cl", "c-7"], Ev.mkdir ["home", "ws"],
        Ev.mkdir ["st"], Ev.writeState ["st", "state.toml"] "doc"] rfl⟩

end Scorpiofs
